import Mathlib

/-
Shallow embedding of the contact repository layer of the FastAPI contacts
backend (src/repository/contacts.py and the delete route of
src/routes/contacts.py).

The persistence store is modelled as a list of contact rows plus a commit
counter; each repository coroutine becomes a pure function from the store
(and the resolved caller identity) to a result.  SQLAlchemy statements
become list filters; scalar_one_or_none, which raises MultipleResultsFound
on more than one row, is modelled with an Except value, as is the
PostgreSQL to_date function, which raises a date-construction error on an
out-of-range text such as 29022025 with format DDMMYYYY.
-/

namespace ContactsApp

/-- Calendar dates, modelling the Python datetime.date values stored in the
birthday column and returned by date.today(). -/
structure Date where
  year : Int
  month : Nat
  day : Nat
deriving DecidableEq, Repr

/-- Proleptic Gregorian leap-year test. -/
def isLeap (y : Int) : Bool :=
  (y % 4 == 0 && y % 100 != 0) || (y % 400 == 0)

/-- Number of days of month m in year y. -/
def daysInMonth (y : Int) (m : Nat) : Nat :=
  if m == 2 then (if isLeap y then 29 else 28)
  else if m == 4 || m == 6 || m == 9 || m == 11 then 30
  else 31

/-- Whether year y, month m, day d form a real calendar date; this is the
test PostgreSQL applies when to_date parses a DDMMYYYY text. -/
def validDate (y : Int) (m d : Nat) : Bool :=
  decide (1 ≤ m) && decide (m ≤ 12) && decide (1 ≤ d) && decide (d ≤ daysInMonth y m)

/-- Rata-die serial number of a date: days since 1970-01-01, by the standard
civil-calendar conversion.  Date comparison and date plus timedelta(days)
arithmetic both act through this serial number. -/
def toRd (dt : Date) : Int :=
  let y : Int := if dt.month ≤ 2 then dt.year - 1 else dt.year
  let era : Int := (if 0 ≤ y then y else y - 399) / 400
  let yoe : Int := y - era * 400
  let m : Int := dt.month
  let d : Int := dt.day
  let mp : Int := if 2 < dt.month then m - 3 else m + 9
  let doy : Int := (153 * mp + 2) / 5 + d - 1
  let doe : Int := yoe * 365 + yoe / 4 - yoe / 100 + doy
  era * 146097 + doe - 719468

/-- Contact row of the contacts table (spec section 3): surrogate id, owner
reference, four string attributes, a birthday date and an optional
description. -/
structure Contact where
  id : Nat
  user_id : Nat
  name : String
  surname : String
  email : String
  phone_number : String
  birthday : Date
  description : Option String
deriving DecidableEq, Repr

/-- Request payload carrying the six writable contact fields
(src/schemas/contact.py ContactSchema, fields per spec section 3). -/
structure ContactSchema where
  name : String
  surname : String
  email : String
  phone_number : String
  birthday : Date
  description : Option String
deriving DecidableEq, Repr

/-- The persistence store: the contact rows in their natural order, plus a
counter of performed commits. -/
structure DB where
  contacts : List Contact
  commits : Nat
deriving DecidableEq, Repr

/-- The filter_by(user=user) ownership test. -/
def ownedBy (u : Nat) (c : Contact) : Bool :=
  c.user_id == u

/-- The filter_by(id=contact_id, user=user) row test shared by get_contact,
update_contact and delete_contact. -/
def idOwnerMatch (cid u : Nat) (c : Contact) : Bool :=
  c.id == cid && ownedBy u c

/-- SQLAlchemy scalar_one_or_none: none for no row, the row if unique, and
the MultipleResultsFound error when several rows match. -/
def scalar_one_or_none (l : List Contact) : Except String (Option Contact) :=
  match l with
  | [] => .ok none
  | [c] => .ok (some c)
  | _ => .error "MultipleResultsFound"

/-- get_contacts (src/repository/contacts.py lines 9-22):
select(Contact).filter_by(user=user).offset(offset).limit(limit). -/
def get_contacts (limit offset : Nat) (db : DB) (u : Nat) : List Contact :=
  (((db.contacts.filter (ownedBy u)).drop offset).take limit)

/-- get_contact (src/repository/contacts.py lines 25-37):
select(Contact).filter_by(id=contact_id, user=user), then
scalar_one_or_none. -/
def get_contact (cid : Nat) (db : DB) (u : Nat) : Except String (Option Contact) :=
  scalar_one_or_none (db.contacts.filter (idOwnerMatch cid u))

/-- PostgreSQL to_date(concat(to_char(birthday, DDMM), year), DDMMYYYY):
reuses the day and month digits of the stored birthday with the supplied
year; errors when the recombined text is not a real date (such as February
29 in a non-leap year). -/
def to_date_DDMMYYYY (b : Date) (y : Int) : Except String Int :=
  if validDate y b.month b.day then .ok (toRd ⟨y, b.month, b.day⟩)
  else .error "date time field value out of range"

/-- SQL BETWEEN: inclusive at both ends. -/
def between (x lo hi : Int) : Bool :=
  decide (lo ≤ x) && decide (x ≤ hi)

/-- The or_ condition of the birthday statement for one row, given the
rata-die window bounds and the two candidate years. -/
def birthdayRowCond (b : Date) (thisYear : Int) (dateFrom dateTo : Int) : Bool :=
  (match to_date_DDMMYYYY b thisYear, to_date_DDMMYYYY b (thisYear + 1) with
   | .ok c1, .ok c2 => between c1 dateFrom dateTo || between c2 dateFrom dateTo
   | _, _ => false)

/-- Whether both candidate dates of a row parse; when some row of the
table fails this, the whole select raises instead of returning rows. -/
def birthdayRowOk (b : Date) (thisYear : Int) : Bool :=
  (to_date_DDMMYYYY b thisYear).isOk && (to_date_DDMMYYYY b (thisYear + 1)).isOk

/-- get_birthday_contacts (src/repository/contacts.py lines 40-62):
dateFrom = today, dateTo = today + timedelta(days); the statement selects
rows where either candidate to_date value is between dateFrom and dateTo,
and filters by user.  Evaluating to_date on a row whose recombined text is
not a real date makes the whole query fail, so the result is an Except:
an error as soon as some row has an unparsable candidate, otherwise the
filtered rows. -/
def get_birthday_contacts (days : Int) (db : DB) (u : Nat) (today : Date) :
    Except String (List Contact) :=
  let dateFrom := toRd today
  let dateTo := dateFrom + days
  let thisYear := today.year
  if db.contacts.all (fun c => birthdayRowOk c.birthday thisYear) then
    .ok (db.contacts.filter
      (fun c => birthdayRowCond c.birthday thisYear dateFrom dateTo && ownedBy u c))
  else .error "date time field value out of range"

/-- Overwriting of the six writable fields performed by update_contact
(src/repository/contacts.py lines 101-106). -/
def applyBody (body : ContactSchema) (c : Contact) : Contact :=
  { c with
    name := body.name
    surname := body.surname
    email := body.email
    phone_number := body.phone_number
    birthday := body.birthday
    description := body.description }

/-- update_contact (src/repository/contacts.py lines 82-109): look up by
(id, user); when found, overwrite all six fields and commit; when absent,
return none and touch nothing. -/
def update_contact (cid : Nat) (body : ContactSchema) (db : DB) (u : Nat) :
    Except String (Option Contact × DB) :=
  match scalar_one_or_none (db.contacts.filter (idOwnerMatch cid u)) with
  | .error e => .error e
  | .ok none => .ok (none, db)
  | .ok (some c) =>
      let c2 := applyBody body c
      .ok (some c2,
        ⟨db.contacts.map (fun x => if idOwnerMatch cid u x then c2 else x),
         db.commits + 1⟩)

/-- delete_contact (src/repository/contacts.py lines 112-128): look up by
(id, user); when found, delete the row and commit; return the looked-up
value either way. -/
def delete_contact (cid : Nat) (db : DB) (u : Nat) :
    Except String (Option Contact × DB) :=
  match scalar_one_or_none (db.contacts.filter (idOwnerMatch cid u)) with
  | .error e => .error e
  | .ok none => .ok (none, db)
  | .ok (some c) =>
      .ok (some c,
        ⟨db.contacts.filter (fun x => !(idOwnerMatch cid u x)), db.commits + 1⟩)

/-- get_contacts_by_params (src/repository/contacts.py lines 131-156): the
first supplied filter among name, surname, email selects the statement; no
branch filters by user; when all three are absent no statement is bound
and db.execute(stmt) raises UnboundLocalError. -/
def get_contacts_by_params (name surname email : Option String) (db : DB) (u : Nat) :
    Except String (List Contact) :=
  match name with
  | some v => .ok (db.contacts.filter (fun c => c.name == v))
  | none =>
    match surname with
    | some v => .ok (db.contacts.filter (fun c => c.surname == v))
    | none =>
      match email with
      | some v => .ok (db.contacts.filter (fun c => c.email == v))
      | none => .error "UnboundLocalError"

/-- Python attribute access result.scalars() applied to what delete_contact
returns: a Contact ORM instance or None, neither of which has a scalars
attribute, so the access raises AttributeError. -/
def scalarsAllOfOption (r : Option Contact) : Except String (List Contact) :=
  match r with
  | none => .error "AttributeError NoneType object has no attribute scalars"
  | some _ => .error "AttributeError Contact object has no attribute scalars"

/-- DELETE /contacts/(contact_id) route handler (src/routes/contacts.py
lines 116-129): calls the repository delete and then returns
contact.scalars().all(); declared status code 204, but there is no 404
branch and the final attribute access raises. -/
def route_delete_contact (cid : Nat) (db : DB) (u : Nat) :
    Except String (List Contact × DB) :=
  match delete_contact cid db u with
  | .error e => .error e
  | .ok (r, db2) =>
      match scalarsAllOfOption r with
      | .error e => .error e
      | .ok l => .ok (l, db2)

end ContactsApp

namespace ContactsApp

/- Sample data used by the concrete evaluations and witnesses. -/

/-- A contact owned by user 1 with an ordinary birthday. -/
def aliceContact : Contact :=
  ⟨1, 1, "Alice", "Smith", "alice at mail", "1234567890", ⟨2000, 3, 12⟩, some "friend"⟩

/-- A store holding only aliceContact. -/
def dbAlice : DB := ⟨[aliceContact], 0⟩

/-- A contact owned by user 1 born on February 29 of a leap year. -/
def febContact : Contact :=
  ⟨3, 1, "Feb", "Leap", "feb at mail", "999", ⟨2000, 2, 29⟩, none⟩

/-- A store holding only febContact. -/
def dbFeb : DB := ⟨[febContact], 0⟩

/-- A contact owned by user 1 born on January 2. -/
def janContact : Contact :=
  ⟨4, 1, "Jan", "Second", "jan at mail", "555", ⟨1990, 1, 2⟩, none⟩

/-- A store holding only janContact. -/
def dbJan : DB := ⟨[janContact], 0⟩

/-- The i-th of fifteen contacts owned by user 1. -/
def mkContact (i : Nat) : Contact :=
  ⟨i, 1, "n", "s", "e", "p", ⟨2000, 1, 1⟩, none⟩

/-- A store of fifteen contacts owned by user 1. -/
def dbFifteen : DB := ⟨(List.range 15).map mkContact, 0⟩

end ContactsApp

namespace ContactsApp

/-- Claim C1: owner-scoping is claimed for get, update, delete, list and
list_by_field, but get_contacts_by_params never filters by user: with a
store holding only a contact of user 1, caller 2 receives that contact
from the by-params query even though get_contact correctly returns none
for caller 2, so the code violates the stated invariant. -/
theorem by_params_leaks_foreign_contact :
    get_contacts_by_params (some "Alice") none none dbAlice 2 = .ok [aliceContact] ∧
    aliceContact.user_id = 1 ∧
    get_contact aliceContact.id dbAlice 2 = .ok none := by
  refine ⟨rfl, rfl, rfl⟩

/-- Claim C2: when the birthday query succeeds, a contact of the owner is
in the result if and only if one of the two candidate dates, built from
the birthday month and day with the current year or the next year, lies in
the inclusive rata-die window from today to today plus days. -/
theorem birthday_window_iff (db : DB) (u : Nat) (today : Date) (days : Int)
    (c : Contact) (hdays : 0 ≤ days) (hc : c ∈ db.contacts) (hu : c.user_id = u)
    (l : List Contact) (hq : get_birthday_contacts days db u today = .ok l) :
    c ∈ l ↔
      (between (toRd ⟨today.year, c.birthday.month, c.birthday.day⟩)
         (toRd today) (toRd today + days) = true ∨
       between (toRd ⟨today.year + 1, c.birthday.month, c.birthday.day⟩)
         (toRd today) (toRd today + days) = true) := by
  unfold get_birthday_contacts at hq
  by_cases hall : db.contacts.all (fun c => birthdayRowOk c.birthday today.year) = true
  · rw [if_pos hall] at hq
    have hok : birthdayRowOk c.birthday today.year = true :=
      List.all_eq_true.mp hall c hc
    have hl : l = db.contacts.filter
        (fun c => birthdayRowCond c.birthday today.year (toRd today) (toRd today + days)
          && ownedBy u c) := by
      exact (Except.ok.injEq _ _).mp hq.symm
    unfold birthdayRowOk at hok
    unfold to_date_DDMMYYYY at hok
    by_cases h1 : validDate today.year c.birthday.month c.birthday.day = true
    · by_cases h2 : validDate (today.year + 1) c.birthday.month c.birthday.day = true
      · subst hl
        rw [List.mem_filter]
        have hcond : birthdayRowCond c.birthday today.year (toRd today) (toRd today + days)
            = (between (toRd ⟨today.year, c.birthday.month, c.birthday.day⟩)
                 (toRd today) (toRd today + days)
               || between (toRd ⟨today.year + 1, c.birthday.month, c.birthday.day⟩)
                 (toRd today) (toRd today + days)) := by
          unfold birthdayRowCond to_date_DDMMYYYY
          rw [if_pos h1, if_pos h2]
        have howned : ownedBy u c = true := by
          unfold ownedBy
          simp [hu]
        constructor
        · intro hmem
          have := hmem.2
          rw [hcond] at this
          simp only [Bool.and_eq_true, Bool.or_eq_true] at this
          exact this.1
        · intro hb
          refine ⟨hc, ?_⟩
          rw [hcond]
          simp only [Bool.and_eq_true, Bool.or_eq_true]
          exact ⟨hb, howned⟩
      · rw [if_pos h1, if_neg h2] at hok
        simp [Except.isOk, Except.toBool] at hok
    · rw [if_neg h1] at hok
      simp [Except.isOk, Except.toBool] at hok
  · rw [if_neg hall] at hq
    exact absurd hq (by simp)

/-- Claim C3: with at least one filter supplied, get_contacts_by_params
returns exactly the contacts whose field selected by the first non-absent
filter, in the order name then surname then email, equals the supplied
value; later supplied filters are ignored. -/
theorem by_params_precedence (n s e : Option String) (db : DB) (u : Nat)
    (h : n ≠ none ∨ s ≠ none ∨ e ≠ none) :
    get_contacts_by_params n s e db u =
      .ok (db.contacts.filter (fun c =>
        match n, s, e with
        | some v, _, _ => c.name == v
        | none, some v, _ => c.surname == v
        | none, none, some v => c.email == v
        | none, none, none => false)) := by
  match n, s, e with
  | some v, _, _ => rfl
  | none, some v, _ => rfl
  | none, none, some v => rfl
  | none, none, none =>
    rcases h with h | h | h <;> exact absurd rfl h

/-- Claim C4: with all three filters absent, no statement is bound and the
call fails with UnboundLocalError instead of returning a list. -/
theorem by_params_all_absent_fails (db : DB) (u : Nat) :
    get_contacts_by_params none none none db u = .error "UnboundLocalError" := rfl

end ContactsApp

namespace ContactsApp

/-- Claim C5: updating a contact that the owner holds overwrites all six
writable fields with the payload values, keeps the id and owner, and the
overwritten record is persisted in the store. -/
theorem update_full_replace (db : DB) (u cid : Nat) (body : ContactSchema)
    (c : Contact) (h : db.contacts.filter (idOwnerMatch cid u) = [c]) :
    update_contact cid body db u =
      .ok (some (applyBody body c),
        ⟨db.contacts.map (fun x => if idOwnerMatch cid u x then applyBody body c else x),
         db.commits + 1⟩) ∧
    (applyBody body c).name = body.name ∧
    (applyBody body c).surname = body.surname ∧
    (applyBody body c).email = body.email ∧
    (applyBody body c).phone_number = body.phone_number ∧
    (applyBody body c).birthday = body.birthday ∧
    (applyBody body c).description = body.description ∧
    (applyBody body c).id = c.id ∧
    (applyBody body c).user_id = c.user_id ∧
    applyBody body c ∈
      db.contacts.map (fun x => if idOwnerMatch cid u x then applyBody body c else x) := by
  have hmem : c ∈ db.contacts ∧ idOwnerMatch cid u c = true := by
    have : c ∈ db.contacts.filter (idOwnerMatch cid u) := by
      rw [h]; exact List.mem_singleton_self c
    exact List.mem_filter.mp this
  refine ⟨?_, rfl, rfl, rfl, rfl, rfl, rfl, rfl, rfl, ?_⟩
  · unfold update_contact
    rw [h]
    rfl
  · exact List.mem_map.mpr ⟨c, hmem.1, by rw [if_pos hmem.2]⟩

/-- Claim C6: updating an id that resolves to no contact of the caller
returns none and leaves the store, commits included, unchanged. -/
theorem update_absent_no_mutation (db : DB) (u cid : Nat) (body : ContactSchema)
    (h : db.contacts.filter (idOwnerMatch cid u) = []) :
    update_contact cid body db u = .ok (none, db) := by
  unfold update_contact
  rw [h]
  rfl

/-- Claim C7: the DELETE route never reaches its declared 204 or the 404 of
the spec: with a matching owned contact in the store and equally with an
empty store, the handler fails with AttributeError, because it applies
scalars to the Contact or None value the repository returned. -/
theorem route_delete_attribute_error :
    route_delete_contact 1 dbAlice 1 =
      .error "AttributeError Contact object has no attribute scalars" ∧
    route_delete_contact 1 ⟨[], 0⟩ 1 =
      .error "AttributeError NoneType object has no attribute scalars" ∧
    delete_contact 1 dbAlice 1 = .ok (some aliceContact, ⟨[], 1⟩) ∧
    delete_contact 1 (⟨[], 0⟩ : DB) 1 = .ok (none, ⟨[], 0⟩) := by
  refine ⟨rfl, rfl, rfl, rfl⟩

/-- Claim C8: over a store where the owner holds fifteen contacts, pages of
ten at offsets zero and ten split into ten then five records whose
concatenation is exactly the owned list in order (no overlap, no gap); and
in general a page is the drop-then-take of the owned list, hence holds at
most limit records. -/
theorem pagination_split (db : DB) (u : Nat)
    (h : (db.contacts.filter (ownedBy u)).length = 15) :
    (get_contacts 10 0 db u).length = 10 ∧
    (get_contacts 10 10 db u).length = 5 ∧
    get_contacts 10 0 db u ++ get_contacts 10 10 db u =
      db.contacts.filter (ownedBy u) ∧
    (∀ limit offset : Nat,
      get_contacts limit offset db u =
        ((db.contacts.filter (ownedBy u)).drop offset).take limit ∧
      (get_contacts limit offset db u).length ≤ limit) := by
  have hdropped : ((db.contacts.filter (ownedBy u)).drop 10).length = 5 := by
    rw [List.length_drop, h]
  constructor
  · unfold get_contacts
    rw [List.drop_zero, List.length_take, h]
    rfl
  constructor
  · unfold get_contacts
    rw [List.take_of_length_le (by omega : ((db.contacts.filter (ownedBy u)).drop 10).length ≤ 10)]
    exact hdropped
  constructor
  · unfold get_contacts
    rw [List.drop_zero,
        List.take_of_length_le (by omega : ((db.contacts.filter (ownedBy u)).drop 10).length ≤ 10)]
    exact List.take_append_drop 10 (db.contacts.filter (ownedBy u))
  · intro limit offset
    refine ⟨rfl, ?_⟩
    unfold get_contacts
    rw [List.length_take]
    omega

/-- Claim C9: the birthday query is partial: with a contact born on
February 29 and a June 2025 today, neither candidate year 2025 nor 2026 is
leap, so the query fails with a date-construction error instead of
returning a list. -/
theorem birthday_leap_day_error :
    get_birthday_contacts 7 dbFeb 1 ⟨2025, 6, 1⟩ =
      .error "date time field value out of range" := by
  rfl

/-- Claim C10 counterexample: with a negative days and an owner whose only
contact is born on February 29, queried from June 2025, the query fails
with a date-construction error, so it does not return the empty list the
claim promises for every owner and negative days. -/
theorem birthday_negative_days_error :
    get_birthday_contacts (-1) dbFeb 1 ⟨2025, 6, 1⟩ ≠ .ok [] := by
  intro hcontra
  have : Except.error "date time field value out of range" =
      (Except.ok [] : Except String (List Contact)) := hcontra
  exact absurd this (by simp)

/-- Claim C10 amended: whenever the query with negative days evaluates
without a date-construction error, it returns the empty list, because the
window end precedes the window start and the inclusive between test is
unsatisfiable. -/
theorem birthday_negative_days_empty (db : DB) (u : Nat) (today : Date)
    (days : Int) (hneg : days < 0) (l : List Contact)
    (hq : get_birthday_contacts days db u today = .ok l) : l = [] := by
  unfold get_birthday_contacts at hq
  by_cases hall : db.contacts.all (fun c => birthdayRowOk c.birthday today.year) = true
  · rw [if_pos hall] at hq
    have hl : l = db.contacts.filter
        (fun c => birthdayRowCond c.birthday today.year (toRd today) (toRd today + days)
          && ownedBy u c) := by
      exact (Except.ok.injEq _ _).mp hq.symm
    subst hl
    rw [List.filter_eq_nil_iff]
    intro c hc
    simp only [Bool.and_eq_true, not_and]
    intro hcond
    exfalso
    unfold birthdayRowCond at hcond
    revert hcond
    cases to_date_DDMMYYYY c.birthday today.year with
    | error e => simp
    | ok c1 =>
      cases to_date_DDMMYYYY c.birthday (today.year + 1) with
      | error e => simp
      | ok c2 =>
        simp only [Bool.or_eq_true]
        unfold between
        simp only [Bool.and_eq_true, decide_eq_true_eq]
        omega
  · rw [if_neg hall] at hq
    exact absurd hq (by simp)

end ContactsApp

namespace ContactsApp

/-- Payload used by the update witnesses; its description is absent, which
exercises the clearing of a previously set description. -/
def bodyW : ContactSchema :=
  ⟨"New", "Person", "new at mail", "0000000000", ⟨1999, 7, 4⟩, none⟩

/-- Witness for claim C2 at the year-straddling instance of the spec:
today December 30 2025, days 5, a contact born January 2; the contact is
returned, and the theorem instance equates membership with the candidate
window test, which the next-year candidate satisfies. -/
theorem birthday_window_iff_witness :
    (0 : Int) ≤ 5 ∧ janContact ∈ dbJan.contacts ∧ janContact.user_id = 1 ∧
    get_birthday_contacts 5 dbJan 1 ⟨2025, 12, 30⟩ = .ok [janContact] ∧
    (janContact ∈ [janContact] ↔
      (between (toRd ⟨(⟨2025, 12, 30⟩ : Date).year, janContact.birthday.month,
          janContact.birthday.day⟩)
         (toRd ⟨2025, 12, 30⟩) (toRd ⟨2025, 12, 30⟩ + 5) = true ∨
       between (toRd ⟨(⟨2025, 12, 30⟩ : Date).year + 1, janContact.birthday.month,
          janContact.birthday.day⟩)
         (toRd ⟨2025, 12, 30⟩) (toRd ⟨2025, 12, 30⟩ + 5) = true)) :=
  ⟨by decide, by decide, rfl, rfl,
   birthday_window_iff dbJan 1 ⟨2025, 12, 30⟩ 5 janContact (by decide) (by decide)
     rfl [janContact] rfl⟩

/-- Witness for claim C3: name and surname filters both supplied; the name
filter wins and the surname filter is ignored. -/
theorem by_params_precedence_witness :
    ((some "Alice" : Option String) ≠ none ∨ (some "Bob" : Option String) ≠ none ∨
      (none : Option String) ≠ none) ∧
    get_contacts_by_params (some "Alice") (some "Bob") none dbAlice 1 =
      .ok (dbAlice.contacts.filter (fun c => c.name == "Alice")) :=
  ⟨Or.inl (by simp),
   by_params_precedence (some "Alice") (some "Bob") none dbAlice 1 (Or.inl (by simp))⟩

/-- Witness for claim C5: updating the stored contact of user 1 with a
payload whose description is absent replaces all six fields. -/
theorem update_full_replace_witness :
    dbAlice.contacts.filter (idOwnerMatch 1 1) = [aliceContact] ∧
    (update_contact 1 bodyW dbAlice 1 =
      .ok (some (applyBody bodyW aliceContact),
        ⟨dbAlice.contacts.map
          (fun x => if idOwnerMatch 1 1 x then applyBody bodyW aliceContact else x),
         dbAlice.commits + 1⟩) ∧
     (applyBody bodyW aliceContact).name = bodyW.name ∧
     (applyBody bodyW aliceContact).surname = bodyW.surname ∧
     (applyBody bodyW aliceContact).email = bodyW.email ∧
     (applyBody bodyW aliceContact).phone_number = bodyW.phone_number ∧
     (applyBody bodyW aliceContact).birthday = bodyW.birthday ∧
     (applyBody bodyW aliceContact).description = bodyW.description ∧
     (applyBody bodyW aliceContact).id = aliceContact.id ∧
     (applyBody bodyW aliceContact).user_id = aliceContact.user_id ∧
     applyBody bodyW aliceContact ∈
       dbAlice.contacts.map
         (fun x => if idOwnerMatch 1 1 x then applyBody bodyW aliceContact else x)) :=
  ⟨by decide, update_full_replace dbAlice 1 1 bodyW aliceContact (by decide)⟩

/-- Witness for claim C6: id 99 resolves to nothing for user 1, and the
update returns none with the store untouched. -/
theorem update_absent_no_mutation_witness :
    dbAlice.contacts.filter (idOwnerMatch 99 1) = [] ∧
    update_contact 99 bodyW dbAlice 1 = .ok (none, dbAlice) :=
  ⟨by decide, update_absent_no_mutation dbAlice 1 99 bodyW (by decide)⟩

/-- Witness for claim C8: over the fifteen-contact store of user 1, the two
pages of ten split into ten then five records concatenating to the full
owned list. -/
theorem pagination_split_witness :
    (dbFifteen.contacts.filter (ownedBy 1)).length = 15 ∧
    (get_contacts 10 0 dbFifteen 1).length = 10 ∧
    (get_contacts 10 10 dbFifteen 1).length = 5 ∧
    get_contacts 10 0 dbFifteen 1 ++ get_contacts 10 10 dbFifteen 1 =
      dbFifteen.contacts.filter (ownedBy 1) :=
  ⟨by decide, (pagination_split dbFifteen 1 (by decide)).1,
   (pagination_split dbFifteen 1 (by decide)).2.1,
   (pagination_split dbFifteen 1 (by decide)).2.2.1⟩

/-- Witness for the amended claim C10: with days minus one and a store
whose only birthday parses in both candidate years, the query evaluates to
the empty list. -/
theorem birthday_negative_days_empty_witness :
    (-1 : Int) < 0 ∧
    get_birthday_contacts (-1) dbJan 1 ⟨2025, 6, 1⟩ = .ok [] ∧
    ([] : List Contact) = [] :=
  ⟨by decide, rfl,
   birthday_negative_days_empty dbJan 1 ⟨2025, 6, 1⟩ (-1) (by decide) [] (by rfl)⟩

end ContactsApp
